import Mathlib

/-!
Verification development for the regulation-observer dashboard
(frontend/gov-reg-analyzer-site/src/App.tsx and components/FilterBar.tsx).

The source file App.tsx contains two concatenated revisions of the same
component; definitions suffixed with a 2 embed the second revision where
the two differ (the filter comparator and the per-table pagination).

Modelling conventions:
- JS numbers carrying the metric values are modelled as Int (the claims
  under study only depend on order and equality of the values).
- Array.prototype.sort with a comparator c is, per the ECMAScript
  specification, a stable sort with respect to the preorder
  a before b iff c(a, b) <= 0; for the consistent comparators in scope the
  stable order is unique, and it is embedded as List.insertionSort, which
  computes that order and is structurally recursive.
- A comparator returning NaN (a subtraction involving undefined) is
  treated by the spec of SortCompare as +0, i.e. a tie.
- Reading a property of undefined (a.data[i][metric] with a.data[i] out of
  bounds) throws a TypeError; fallible operations are embedded as
  Except Unit.  The sort of an array of length >= 2 evaluates every
  element through the comparator at least once, so the top3 and bottom3
  branches are embedded to fail exactly when the list has length >= 2 and
  some comparator access is out of bounds; for arrays of length <= 1 the
  comparator is never invoked.
- localeCompare is modelled by the total order on String.
-/

deriving instance DecidableEq for Except

namespace RegObserver

/-- One year of pre-computed metrics for an agency, the record shape of
data/agencies.json. -/
structure YearMetric where
  year : Int
  wordCount : Int
  avgSentenceLength : Int
  restrictiveness : Int
  sentiment : Int
deriving DecidableEq, Repr

/-- An agency with its series of yearly metric records. -/
structure Agency where
  agency : String
  data : List YearMetric
deriving DecidableEq, Repr

/-- The four metric tables and charts of the dashboard. -/
inductive Metric where
  | wordCount
  | avgSentenceLength
  | restrictiveness
  | sentiment
deriving DecidableEq, Repr

/-- The string key of a metric, as used to index a record in the source. -/
def Metric.key : Metric → String
  | .wordCount => "wordCount"
  | .avgSentenceLength => "avgSentenceLength"
  | .restrictiveness => "restrictiveness"
  | .sentiment => "sentiment"

/-- Field access record[m] for one of the four metric columns. -/
def YearMetric.get (r : YearMetric) : Metric → Int
  | .wordCount => r.wordCount
  | .avgSentenceLength => r.avgSentenceLength
  | .restrictiveness => r.restrictiveness
  | .sentiment => r.sentiment

/-- Dynamic property access record[key] for a string key, as in
record[metric as keyof ...]: some value for the five record fields,
none (undefined) otherwise. -/
def getKey? (key : String) (r : YearMetric) : Option Int :=
  if key = "year" then some r.year
  else if key = "wordCount" then some r.wordCount
  else if key = "avgSentenceLength" then some r.avgSentenceLength
  else if key = "restrictiveness" then some r.restrictiveness
  else if key = "sentiment" then some r.sentiment
  else none

/-- JS array indexing arr[i] with a (possibly negative) integer index:
undefined outside the bounds. -/
def jsGet (l : List YearMetric) (i : Int) : Option YearMetric :=
  if 0 ≤ i then l[i.toNat]? else none

/-- Truthiness of an optional string argument, as tested by
filterType === "top3" && metric: false for undefined and for "". -/
def truthy : Option String → Bool
  | some s => !(s == "")
  | none => false

/-- JS String.prototype.toLowerCase restricted to the character-wise case
mapping. -/
def jsToLower (s : String) : String :=
  ⟨s.data.map Char.toLower⟩

/-- Helper for jsIncludes: does the needle occur as a contiguous
subsequence of the haystack. -/
def includesAux (needle : List Char) : List Char → Bool
  | [] => needle.isEmpty
  | c :: t => needle.isPrefixOf (c :: t) || includesAux needle t

/-- JS String.prototype.includes: substring containment. -/
def jsIncludes (s sub : String) : Bool :=
  includesAux sub.data s.data

/-- The value a.data[a.data.length - 1][key] read by the first-revision
filter comparator: the latest record of the agency, indexed by key.
none when the access yields undefined (empty series or unknown key). -/
def lastVal (key : String) (a : Agency) : Option Int :=
  (jsGet a.data ((a.data.length : Int) - 1)).bind (getKey? key)

/-- The value b.data[a.data.length - 1][key] read by the second-revision
filter comparator: b indexed at the position of the OTHER operand a. -/
def crossVal (key : String) (a b : Agency) : Option Int :=
  (jsGet b.data ((a.data.length : Int) - 1)).bind (getKey? key)

/-- The pair of values the first-revision top3/bottom3 comparator reads
for the operand pair (a, b). -/
def cmpVals₁ (key : String) (a b : Agency) : Option Int × Option Int :=
  (lastVal key a, lastVal key b)

/-- The pair of values the second-revision top3/bottom3 comparator reads
for the operand pair (a, b). -/
def cmpVals₂ (key : String) (a b : Agency) : Option Int × Option Int :=
  (lastVal key a, crossVal key a b)

/-- First-revision descending comparator as a preorder test:
a may come before b iff bValue - aValue <= 0.  A NaN comparison result
(some access undefined) counts as a tie. -/
def jsDescLeB (key : String) (a b : Agency) : Bool :=
  match lastVal key a, lastVal key b with
  | some x, some y => decide (y ≤ x)
  | _, _ => true

/-- First-revision ascending comparator as a preorder test:
a may come before b iff aValue - bValue <= 0. -/
def jsAscLeB (key : String) (a b : Agency) : Bool :=
  match lastVal key a, lastVal key b with
  | some x, some y => decide (x ≤ y)
  | _, _ => true

/-- Second-revision descending comparator (bValue is read at the index
a.data.length - 1).  On inputs where an access is out of bounds the
original throws; the surrounding filter signals those inputs. -/
def jsDescLeB₂ (key : String) (a b : Agency) : Bool :=
  match lastVal key a, crossVal key a b with
  | some x, some y => decide (y ≤ x)
  | _, _ => true

/-- Second-revision ascending comparator. -/
def jsAscLeB₂ (key : String) (a b : Agency) : Bool :=
  match lastVal key a, crossVal key a b with
  | some x, some y => decide (x ≤ y)
  | _, _ => true

def jsDescLe (key : String) (a b : Agency) : Prop := jsDescLeB key a b = true

def jsAscLe (key : String) (a b : Agency) : Prop := jsAscLeB key a b = true

def jsDescLe₂ (key : String) (a b : Agency) : Prop := jsDescLeB₂ key a b = true

def jsAscLe₂ (key : String) (a b : Agency) : Prop := jsAscLeB₂ key a b = true

instance (key : String) : DecidableRel (jsDescLe key) :=
  fun a b => inferInstanceAs (Decidable (jsDescLeB key a b = true))

instance (key : String) : DecidableRel (jsAscLe key) :=
  fun a b => inferInstanceAs (Decidable (jsAscLeB key a b = true))

instance (key : String) : DecidableRel (jsDescLe₂ key) :=
  fun a b => inferInstanceAs (Decidable (jsDescLeB₂ key a b = true))

instance (key : String) : DecidableRel (jsAscLe₂ key) :=
  fun a b => inferInstanceAs (Decidable (jsAscLeB₂ key a b = true))

/-- Does sorting with the first-revision comparator throw: some agency in
an array of length >= 2 has an empty series, so its latest-record access
is undefined and indexing it by the metric raises a TypeError. -/
def sortCrashes (data : List Agency) : Bool :=
  decide (2 ≤ data.length) && data.any (fun a => a.data.isEmpty)

/-- Does sorting with the second-revision comparator reach an
out-of-bounds access for some operand pair. -/
def oob₂ (data : List Agency) : Bool :=
  data.any fun a => data.any fun b =>
    (jsGet b.data ((a.data.length : Int) - 1)).isNone

/-- handleFilter of the first revision (App.tsx lines 29-56), embedded
over an explicit dataset argument in place of the closed-over
filteredAgenciesData.  Fallible because the top3/bottom3 comparator can
throw on an agency with an empty year series. -/
def handleFilterE (filterType : String) (selected : Option (List String))
    (metric : Option String) (data : List Agency) :
    Except Unit (List Agency) :=
  if (filterType == "top3") && truthy metric then
    if sortCrashes data then .error () else
      .ok ((List.insertionSort (jsDescLe (metric.getD "")) data).take 3)
  else if (filterType == "bottom3") && truthy metric then
    if sortCrashes data then .error () else
      .ok ((List.insertionSort (jsAscLe (metric.getD "")) data).take 3)
  else if (filterType == "specific") && selected.isSome then
    .ok (data.filter (fun a => (selected.getD []).contains a.agency))
  else if (filterType == "search") && truthy metric then
    .ok (data.filter (fun a => jsIncludes (jsToLower a.agency) (metric.getD "")))
  else
    .ok (data.take 3)

/-- handleFilter of the second revision (App.tsx lines 237-264).  It
differs from the first only in the top3/bottom3 comparators, which index
b.data by a.data.length - 1.  On datasets with non-uniform series lengths
the original may throw (depending on the order of comparator calls
chosen by the engine); the embedding signals an error whenever some
operand pair can reach an out-of-bounds access, and is exact on the
uniform-length datasets on which the equivalence theorem is stated. -/
def handleFilterE₂ (filterType : String) (selected : Option (List String))
    (metric : Option String) (data : List Agency) :
    Except Unit (List Agency) :=
  if (filterType == "top3") && truthy metric then
    if decide (2 ≤ data.length) && oob₂ data then .error () else
      .ok ((List.insertionSort (jsDescLe₂ (metric.getD "")) data).take 3)
  else if (filterType == "bottom3") && truthy metric then
    if decide (2 ≤ data.length) && oob₂ data then .error () else
      .ok ((List.insertionSort (jsAscLe₂ (metric.getD "")) data).take 3)
  else if (filterType == "specific") && selected.isSome then
    .ok (data.filter (fun a => (selected.getD []).contains a.agency))
  else if (filterType == "search") && truthy metric then
    .ok (data.filter (fun a => jsIncludes (jsToLower a.agency) (metric.getD "")))
  else
    .ok (data.take 3)

/-- handleSearch of FilterBar.tsx lines 18-21: the raw query is
lower-cased before being passed as the metric argument of the search
mode. -/
def handleSearch (q : String) (data : List Agency) :
    Except Unit (List Agency) :=
  handleFilterE "search" none (some (jsToLower q)) data

/-- The latest-year value of a metric key with 0 for a missing access;
the specification-level accessor used to state the ordering properties
of the top3 and bottom3 filters. -/
def latestValD (key : String) (a : Agency) : Int :=
  (lastVal key a).getD 0

/-- A sortable table column: the agency-name column or a year column
(the source stores the column as a string and converts year columns with
Number). -/
inductive Col where
  | agencyCol
  | yearCol (y : Int)
deriving DecidableEq, Repr

/-- A sort direction. -/
inductive Dir where
  | asc
  | desc
deriving DecidableEq, Repr

def Dir.toggle : Dir → Dir
  | .asc => .desc
  | .desc => .asc

/-- The per-metric sort state: column and direction, both null until the
first click in the first revision. -/
structure SortState where
  column : Option Col
  direction : Option Dir
deriving DecidableEq, Repr

/-- The sortStates record: one independent SortState per metric. -/
def SortStates := Metric → SortState

/-- The value a.data.find(d => d.year === y)?.[metric] || 0 used by the
table sort: the metric value of the record of year y, with 0 when the
agency has no record for that year. -/
def sortVal (m : Metric) (y : Int) (a : Agency) : Int :=
  ((a.data.find? (fun d => d.year == y)).map (fun r => r.get m)).getD 0

/-- The table-sort comparator of getSortedAgencies as a preorder test:
a may come before b iff the comparator value is <= 0.  The agency column
compares names (localeCompare modelled by the String order); a year
column compares sortVal values. -/
def sortLeB (m : Metric) (c : Col) (d : Dir) (a b : Agency) : Bool :=
  match c with
  | .agencyCol =>
    match d with
    | .asc => decide (a.agency ≤ b.agency)
    | .desc => decide (b.agency ≤ a.agency)
  | .yearCol y =>
    match d with
    | .asc => decide (sortVal m y a ≤ sortVal m y b)
    | .desc => decide (sortVal m y b ≤ sortVal m y a)

def sortLe (m : Metric) (c : Col) (d : Dir) (a b : Agency) : Prop :=
  sortLeB m c d a b = true

instance (m : Metric) (c : Col) (d : Dir) : DecidableRel (sortLe m c d) :=
  fun a b => inferInstanceAs (Decidable (sortLeB m c d a b = true))

/-- getSortedAgencies (App.tsx lines 77-96, identical in both revisions):
with no column or no direction selected for the metric, the dataset is
returned unsorted; otherwise it is stably sorted by the comparator. -/
def getSortedAgencies (m : Metric) (st : SortStates) (data : List Agency) :
    List Agency :=
  match (st m).column, (st m).direction with
  | some c, some d => List.insertionSort (sortLe m c d) data
  | _, _ => data

/-- handleSort (App.tsx lines 68-75): clicking a column stores it for the
metric and sets the direction to desc when the same column was already
sorted ascending, to asc otherwise.  Only the clicked metric entry
changes. -/
def handleSort (m : Metric) (c : Col) (st : SortStates) : SortStates :=
  fun mp =>
    if mp = m then
      ⟨some c,
        some (if (st m).column = some c ∧ (st m).direction = some Dir.asc
          then Dir.desc else Dir.asc)⟩
    else st mp

/-- The initial sortStates of the first revision: all null. -/
def initSortStates₁ : SortStates := fun _ => ⟨none, none⟩

/-- The initial sortStates of the second revision: every metric sorted by
the 2025 column descending. -/
def initSortStates₂ : SortStates := fun _ => ⟨some (Col.yearCol 2025), some Dir.desc⟩

/-- agenciesPerPage (App.tsx line 10). -/
def agenciesPerPage : Nat := 5

/-- totalPages = Math.ceil(totalAgencies / agenciesPerPage)
(App.tsx line 99): note there is no minimum of 1 in the source. -/
def totalPages (totalAgencies : Nat) : Nat :=
  (totalAgencies + (agenciesPerPage - 1)) / agenciesPerPage

/-- The Next button: setCurrentPage(prev => Math.min(prev + 1, totalPages)). -/
def nextPage (tp p : Nat) : Nat := min (p + 1) tp

/-- The Previous button: setCurrentPage(prev => Math.max(prev - 1, 1)). -/
def prevPage (p : Nat) : Nat := max (p - 1) 1

/-- sorted.slice(startIndex, startIndex + agenciesPerPage) with
startIndex = (currentPage - 1) * agenciesPerPage. -/
def pageSlice (page : Nat) (l : List Agency) : List Agency :=
  (l.drop ((page - 1) * agenciesPerPage)).take agenciesPerPage

/-- The rows displayed by a metric table in the first revision
(App.tsx line 101): ONE paginated list, computed from the wordCount sort
state, is reused for all four tables, so the metric argument is ignored. -/
def tableRows₁ (data : List Agency) (st : SortStates) (page : Nat)
    (_m : Metric) : List Agency :=
  pageSlice page (getSortedAgencies Metric.wordCount st data)

/-- The rows displayed by a metric table in the second revision
(App.tsx lines 313-315): each table paginates its own sorted list. -/
def tableRows₂ (data : List Agency) (st : SortStates) (page : Nat)
    (m : Metric) : List Agency :=
  pageSlice page (getSortedAgencies m st data)

/-- The App-level state updated by handleFilter: the selection feeding the
charts and the current page. -/
structure AppState where
  selected : List Agency
  page : Nat
deriving DecidableEq, Repr

/-- The state transition of a filter invocation (App.tsx lines 54-55):
setSelectedAgencies(filtered); setCurrentPage(1). -/
def applyFilter (data : List Agency) (filterType : String)
    (selected : Option (List String)) (metric : Option String)
    (_s : AppState) : Except Unit AppState :=
  match handleFilterE filterType selected metric data with
  | .ok out => .ok ⟨out, 1⟩
  | .error e => .error e

/-- The agency list rendered by the charts: ChartSection receives
selectedAgencies (App.tsx line 189). -/
def chartInput (s : AppState) : List Agency := s.selected

/-- The agency list the table sort engine reorders: getSortedAgencies
spreads filteredAgenciesData (App.tsx lines 79 and 81), the full dataset,
not the selection in the state. -/
def tableSortInput (data : List Agency) (_s : AppState) : List Agency := data

/- Concrete fixtures used by the counterexamples, scenarios and witnesses. -/

/-- An agency with a single 2024 record carrying a word count. -/
def mkAgency (n : String) (wc : Int) : Agency := ⟨n, [⟨2024, wc, 0, 0, 0⟩]⟩

def agencyA : Agency := mkAgency "A" 10
def agencyB : Agency := mkAgency "B" 30
def agencyC : Agency := mkAgency "C" 20
def agencyD : Agency := mkAgency "D" 5

/-- An agency with no record in the displayed years. -/
def agencyEmpty : Agency := ⟨"E", []⟩

def treasuryAgency : Agency := mkAgency "Department of the Treasury" 7

/-- An agency with a one-year series, for the comparator divergence. -/
def agencyShort : Agency := ⟨"S", [⟨2024, 10, 0, 0, 0⟩]⟩

/-- An agency with a two-year series whose 2024 and 2025 word counts
differ. -/
def agencyLong : Agency := ⟨"L", [⟨2024, 5, 0, 0, 0⟩, ⟨2025, 20, 0, 0, 0⟩]⟩

/-- Six agencies with identical word counts. -/
def sixEqual : List Agency :=
  [mkAgency "s1" 7, mkAgency "s2" 7, mkAgency "s3" 7,
   mkAgency "s4" 7, mkAgency "s5" 7, mkAgency "s6" 7]

/-- Six agencies with pairwise distinct word counts. -/
def sixDistinct : List Agency :=
  [mkAgency "d1" 10, mkAgency "d2" 20, mkAgency "d3" 30,
   mkAgency "d4" 40, mkAgency "d5" 50, mkAgency "d6" 60]

def agencyX : Agency := mkAgency "X" 5
def agencyY : Agency := mkAgency "Y" 3

/- General lemmas about the embedded operations. -/

theorem orderedInsert_congr {α : Type} {r s : α → α → Prop}
    [DecidableRel r] [DecidableRel s] {a : α} {l : List α}
    (h : ∀ b ∈ l, (r a b ↔ s a b)) :
    List.orderedInsert r a l = List.orderedInsert s a l := by
  induction l with
  | nil => rfl
  | cons b t ih =>
    have hb := h b (List.mem_cons_self b t)
    by_cases hrb : r a b
    · simp [List.orderedInsert, if_pos hrb, if_pos (hb.mp hrb)]
    · have hsb : ¬ s a b := fun hs => hrb (hb.mpr hs)
      simp only [List.orderedInsert, if_neg hrb, if_neg hsb]
      rw [ih (fun x hx => h x (List.mem_cons_of_mem b hx))]

theorem insertionSort_congr {α : Type} {r s : α → α → Prop}
    [DecidableRel r] [DecidableRel s] {l : List α}
    (h : ∀ a ∈ l, ∀ b ∈ l, (r a b ↔ s a b)) :
    List.insertionSort r l = List.insertionSort s l := by
  induction l with
  | nil => rfl
  | cons a t ih =>
    simp only [List.insertionSort]
    rw [ih (fun x hx y hy =>
      h x (List.mem_cons_of_mem a hx) y (List.mem_cons_of_mem a hy))]
    exact orderedInsert_congr (fun b hb =>
      h a (List.mem_cons_self a t) b
        (List.mem_cons_of_mem a ((List.perm_insertionSort s t).mem_iff.mp hb)))

theorem includesAux_iff (needle hay : List Char) :
    includesAux needle hay = true ↔ needle <:+: hay := by
  induction hay with
  | nil =>
    simp only [includesAux, List.isEmpty_iff]
    constructor
    · rintro rfl; exact List.infix_rfl
    · intro h; exact List.eq_nil_of_infix_nil h
  | cons c t ih =>
    simp only [includesAux, Bool.or_eq_true, ih]
    rw [List.isPrefixOf_iff_prefix]
    constructor
    · rintro (h | h)
      · exact h.isInfix
      · exact h.trans (List.suffix_cons c t).isInfix
    · intro h
      rcases h with ⟨pre, suf, heq⟩
      cases pre with
      | nil => exact Or.inl ⟨suf, by simpa using heq⟩
      | cons p ps =>
        refine Or.inr ⟨ps, suf, ?_⟩
        have : p = c := by
          have := congrArg (List.head?) heq
          simpa using this
        subst this
        simpa using congrArg List.tail heq

theorem jsToLower_ne_empty {q : String} (h : q ≠ "") : jsToLower q ≠ "" := by
  intro hq
  apply h
  have hd := congrArg String.data hq
  simp only [jsToLower] at hd
  cases q with
  | mk data =>
    cases data with
    | nil => rfl
    | cons c t => simp at hd

/-- jsGet at index length - 1 is exactly getLast?. -/
theorem jsGet_last (l : List YearMetric) :
    jsGet l ((l.length : Int) - 1) = l.getLast? := by
  cases l with
  | nil => rfl
  | cons a t =>
    have hnn : (0 : Int) ≤ ((a :: t).length : Int) - 1 := by
      simp only [List.length_cons]
      omega
    have htn : (((a :: t).length : Int) - 1).toNat = (a :: t).length - 1 := by
      omega
    rw [jsGet, if_pos hnn, htn, List.getLast?_eq_getElem?]

theorem getKey?_metricKey (m : Metric) (r : YearMetric) :
    getKey? m.key r = some (r.get m) := by
  cases m <;> rfl

theorem lastVal_eq_some (m : Metric) (a : Agency) (h : a.data ≠ []) :
    lastVal m.key a = some (latestValD m.key a) := by
  obtain ⟨r, hr⟩ := Option.isSome_iff_exists.mp
    ((List.getLast?_isSome (l := a.data)).mpr h)
  simp [lastVal, latestValD, jsGet_last, hr, getKey?_metricKey]

theorem jsDescLe_iff (m : Metric) (a b : Agency)
    (ha : a.data ≠ []) (hb : b.data ≠ []) :
    jsDescLe m.key a b ↔ latestValD m.key b ≤ latestValD m.key a := by
  rw [jsDescLe, jsDescLeB, lastVal_eq_some m a ha, lastVal_eq_some m b hb]
  simp

theorem jsAscLe_iff (m : Metric) (a b : Agency)
    (ha : a.data ≠ []) (hb : b.data ≠ []) :
    jsAscLe m.key a b ↔ latestValD m.key a ≤ latestValD m.key b := by
  rw [jsAscLe, jsAscLeB, lastVal_eq_some m a ha, lastVal_eq_some m b hb]
  simp

theorem sortCrashes_eq_false {l : List Agency} (h : ∀ a ∈ l, a.data ≠ []) :
    sortCrashes l = false := by
  simp only [sortCrashes, Bool.and_eq_false_iff]
  right
  simp only [List.any_eq_false, List.isEmpty_iff]
  exact h

/-- Branch reduction: the top3 mode with a truthy metric argument. -/
theorem handleFilterE_top3 (sel : Option (List String)) (mt : Option String)
    (data : List Agency) (h : truthy mt = true) :
    handleFilterE "top3" sel mt data =
      if sortCrashes data then .error () else
        .ok ((List.insertionSort (jsDescLe (mt.getD "")) data).take 3) := by
  simp [handleFilterE, h]

/-- Branch reduction: the bottom3 mode with a truthy metric argument. -/
theorem handleFilterE_bottom3 (sel : Option (List String)) (mt : Option String)
    (data : List Agency) (h : truthy mt = true) :
    handleFilterE "bottom3" sel mt data =
      if sortCrashes data then .error () else
        .ok ((List.insertionSort (jsAscLe (mt.getD "")) data).take 3) := by
  simp [handleFilterE, h]

/-- The descending sort of the top3 branch under the preconditions of the
ordering claims equals the sort by the descending latest-value order. -/
theorem insertionSort_desc_eq (m : Metric) (l : List Agency)
    (h : ∀ a ∈ l, a.data ≠ []) :
    List.insertionSort (jsDescLe m.key) l =
      List.insertionSort
        (fun a b => latestValD m.key b ≤ latestValD m.key a) l :=
  insertionSort_congr (fun a ha b hb => jsDescLe_iff m a b (h a ha) (h b hb))

theorem insertionSort_asc_eq (m : Metric) (l : List Agency)
    (h : ∀ a ∈ l, a.data ≠ []) :
    List.insertionSort (jsAscLe m.key) l =
      List.insertionSort
        (fun a b => latestValD m.key a ≤ latestValD m.key b) l :=
  insertionSort_congr (fun a ha b hb => jsAscLe_iff m a b (h a ha) (h b hb))

theorem handleSort_same (m : Metric) (c : Col) (st : SortStates) :
    handleSort m c st m =
      ⟨some c,
        some (if (st m).column = some c ∧ (st m).direction = some Dir.asc
          then Dir.desc else Dir.asc)⟩ := by
  simp [handleSort]

theorem handleSort_other (m : Metric) (c : Col) (st : SortStates)
    (mp : Metric) (h : mp ≠ m) : handleSort m c st mp = st mp := by
  simp [handleSort, h]

/-- Branch reduction: the search mode with a truthy metric argument. -/
theorem handleFilterE_search (sel : Option (List String)) (mt : Option String)
    (data : List Agency) (h : truthy mt = true) :
    handleFilterE "search" sel mt data =
      .ok (data.filter
        (fun a => jsIncludes (jsToLower a.agency) (mt.getD ""))) := by
  simp [handleFilterE, h]

/-- The top3 branch on a dataset whose sort does not throw. -/
theorem handleFilterE_top3_ok (sel : Option (List String)) (mt : Option String)
    (data : List Agency) (h : truthy mt = true)
    (hc : sortCrashes data = false) :
    handleFilterE "top3" sel mt data =
      .ok ((List.insertionSort (jsDescLe (mt.getD "")) data).take 3) := by
  rw [handleFilterE_top3 sel mt data h, hc]
  exact if_neg Bool.false_ne_true

/-- The bottom3 branch on a dataset whose sort does not throw. -/
theorem handleFilterE_bottom3_ok (sel : Option (List String))
    (mt : Option String) (data : List Agency) (h : truthy mt = true)
    (hc : sortCrashes data = false) :
    handleFilterE "bottom3" sel mt data =
      .ok ((List.insertionSort (jsAscLe (mt.getD "")) data).take 3) := by
  rw [handleFilterE_bottom3 sel mt data h, hc]
  exact if_neg Bool.false_ne_true

theorem truthy_metricKey (m : Metric) : truthy (some m.key) = true := by
  cases m <;> rfl

/- Claim theorems. -/

/-- Claim C1 (code bug): invoking the filter with mode "all" does NOT
return the full list unchanged.  handleFilter has no branch for the
string "all" passed by the All Agencies button, so the mode falls into
the unknown-mode fallback and only the first three agencies (of four
here) are returned. -/
theorem c1_all_mode_fallback_first_three :
    handleFilterE "all" none none [agencyA, agencyB, agencyC, agencyD] =
      .ok [agencyA, agencyB, agencyC] ∧
    ([agencyA, agencyB, agencyC] : List Agency) ≠
      [agencyA, agencyB, agencyC, agencyD] := by
  decide

/-- Claim C2, counterexample: searching with the empty query does not
return an empty result set; the empty string is falsy, so the search
branch is skipped and the fallback returns the first three agencies
(here the single agency of the dataset). -/
theorem c2_empty_search_counterexample :
    handleSearch "" [treasuryAgency] = .ok [treasuryAgency] ∧
    ([treasuryAgency] : List Agency) ≠ [] := by
  decide

/-- Claim C2 as amended: search with the empty query returns the
unknown-mode default (the first three agencies of the dataset) rather
than an empty result; a non-empty query returns exactly the agencies
whose lower-cased name contains the lower-cased query as a substring
(case-insensitive match); in particular search "treasury" matches the
agency named Department of the Treasury. -/
theorem c2_search_amended :
    (∀ data : List Agency, handleSearch "" data = .ok (data.take 3)) ∧
    (∀ (q : String) (data : List Agency), q ≠ "" →
      ∃ out, handleSearch q data = .ok out ∧
        ∀ a : Agency, a ∈ out ↔
          a ∈ data ∧ (jsToLower q).data <:+: (jsToLower a.agency).data) ∧
    handleSearch "treasury" [agencyA, treasuryAgency] =
      .ok [treasuryAgency] := by
  refine ⟨fun data => rfl, ?_, by decide⟩
  intro q data hq
  have ht : truthy (some (jsToLower q)) = true := by
    have hne := jsToLower_ne_empty hq
    simp [truthy, hne]
  refine ⟨_, handleFilterE_search none (some (jsToLower q)) data ht, ?_⟩
  intro a
  rw [List.mem_filter]
  exact and_congr_right fun _ => by
    rw [Option.getD_some, jsIncludes, includesAux_iff]

theorem c2_search_amended_witness :
    ("treasury" : String) ≠ "" ∧
    ∃ out, handleSearch "treasury" [agencyA, treasuryAgency] = .ok out ∧
      ∀ a : Agency, a ∈ out ↔
        a ∈ [agencyA, treasuryAgency] ∧
        (jsToLower "treasury").data <:+: (jsToLower a.agency).data :=
  ⟨by decide,
   c2_search_amended.2.1 "treasury" [agencyA, treasuryAgency] (by decide)⟩

/-- Claim C3, counterexample: after a filter that selects only agency X
out of the dataset [X, Y], the list the table sort engine reorders (and
that pagination slices) is still the full dataset [X, Y], not the
recomputed selection [X]. -/
theorem c3_table_ignores_selection_counterexample :
    applyFilter [agencyX, agencyY] "specific" (some ["X"]) none ⟨[], 1⟩ =
      .ok ⟨[agencyX], 1⟩ ∧
    tableSortInput [agencyX, agencyY] ⟨[agencyX], 1⟩ = [agencyX, agencyY] ∧
    getSortedAgencies Metric.wordCount initSortStates₁ [agencyX, agencyY] =
      [agencyX, agencyY] ∧
    ([agencyX, agencyY] : List Agency) ≠ [agencyX] := by
  decide

/-- Claim C3 as amended: a filter invocation recomputes the selection and
resets the page to 1, and the selection feeds the chart view; the table
view, however, sorts and paginates the full dataset, which does not
depend on the selection in the application state. -/
theorem c3_dataflow_amended :
    ∀ (data : List Agency) (ft : String) (sel : Option (List String))
      (mt : Option String) (s : AppState) (out : List Agency),
      handleFilterE ft sel mt data = .ok out →
      applyFilter data ft sel mt s = .ok ⟨out, 1⟩ ∧
      chartInput ⟨out, 1⟩ = out ∧
      tableSortInput data ⟨out, 1⟩ = data ∧
      ∀ s₁ s₂ : AppState,
        tableSortInput data s₁ = tableSortInput data s₂ := by
  intro data ft sel mt s out h
  refine ⟨?_, rfl, rfl, fun s₁ s₂ => rfl⟩
  simp [applyFilter, h]

theorem c3_dataflow_amended_witness :
    handleFilterE "specific" (some ["X"]) none [agencyX, agencyY] =
      .ok [agencyX] ∧
    (applyFilter [agencyX, agencyY] "specific" (some ["X"]) none ⟨[], 5⟩ =
        .ok ⟨[agencyX], 1⟩ ∧
      chartInput ⟨[agencyX], 1⟩ = [agencyX] ∧
      tableSortInput [agencyX, agencyY] ⟨[agencyX], 1⟩ = [agencyX, agencyY] ∧
      ∀ s₁ s₂ : AppState,
        tableSortInput [agencyX, agencyY] s₁ =
          tableSortInput [agencyX, agencyY] s₂) :=
  ⟨by decide,
   c3_dataflow_amended [agencyX, agencyY] "specific" (some ["X"]) none
     ⟨[], 5⟩ [agencyX] (by decide)⟩

/-- Claim C5, counterexample: the top3 filter on a dataset containing an
agency with an empty year series throws (the comparator reads a property
of undefined); the filter does not complete with a defined default. -/
theorem c5_empty_series_top3_throws :
    handleFilterE "top3" none (some "wordCount") [agencyEmpty, agencyB] =
      .error () := by
  decide

/-- Claim C5 as amended: every filter mode completes without an
exception, provided that in modes top3 and bottom3 every agency has a
non-empty year series (without that proviso those two modes throw, as
the counterexample shows); the table sort always completes, returning a
permutation of its input, and a metric value missing for the requested
year is treated as 0. -/
theorem c5_totality_amended :
    (∀ (ft : String) (sel : Option (List String)) (mt : Option String)
       (data : List Agency),
       ((ft = "top3" ∨ ft = "bottom3") → ∀ a ∈ data, a.data ≠ []) →
       ∃ out, handleFilterE ft sel mt data = .ok out) ∧
    (∀ (m : Metric) (st : SortStates) (data : List Agency),
       (getSortedAgencies m st data).Perm data) ∧
    (∀ (m : Metric) (y : Int) (a : Agency),
       (∀ r ∈ a.data, r.year ≠ y) → sortVal m y a = 0) := by
  refine ⟨?_, ?_, ?_⟩
  · intro ft sel mt data h
    unfold handleFilterE
    split_ifs with h1 h2 h3 h4 h5 h6
    · exfalso
      have h1c := h1
      simp only [Bool.and_eq_true, beq_iff_eq] at h1c
      rw [sortCrashes_eq_false (h (Or.inl h1c.1))] at h2
      exact Bool.false_ne_true h2
    · exact ⟨_, rfl⟩
    · exfalso
      have h3c := h3
      simp only [Bool.and_eq_true, beq_iff_eq] at h3c
      rw [sortCrashes_eq_false (h (Or.inr h3c.1))] at h4
      exact Bool.false_ne_true h4
    · exact ⟨_, rfl⟩
    · exact ⟨_, rfl⟩
    · exact ⟨_, rfl⟩
    · exact ⟨_, rfl⟩
  · intro m st data
    unfold getSortedAgencies
    cases hc : (st m).column with
    | none => exact List.Perm.refl data
    | some c =>
      cases hd : (st m).direction with
      | none => exact List.Perm.refl data
      | some d => exact List.perm_insertionSort _ data
  · intro m y a h
    have : a.data.find? (fun d => d.year == y) = none := by
      rw [List.find?_eq_none]
      intro r hr
      simpa using h r hr
    simp [sortVal, this]

theorem c5_totality_amended_witness :
    ((("top3" = "top3" ∨ "top3" = "bottom3") →
        ∀ a ∈ [agencyA, agencyB, agencyC], a.data ≠ []) ∧
      ∃ out, handleFilterE "top3" none (some "wordCount")
        [agencyA, agencyB, agencyC] = .ok out) :=
  ⟨by decide,
   c5_totality_amended.1 "top3" none (some "wordCount")
     [agencyA, agencyB, agencyC] (by decide)⟩

/-- Claim C7, counterexample: totalPages is Math.ceil(count / pageSize)
with NO minimum of 1: with zero agencies it is 0, not 1, and the Next
button then moves the page from 1 to 0, outside the claimed range. -/
theorem c7_zero_agencies_counterexample :
    totalPages 0 = 0 ∧ totalPages 0 ≠ 1 ∧ nextPage (totalPages 0) 1 = 0 := by
  decide

/-- Claim C7 as amended: for a positive agency count, totalPages is the
ceiling of count / pageSize (the least number of pages covering the
count), the page number stays clamped to [1, totalPages] under the Next
and Previous buttons, and navigation past either boundary is a no-op;
with page size 5 and 12 agencies totalPages is 3 and four Next clicks
from page 1 (requesting page 5) stop at page 3.  The minimum of 1
claimed for totalPages does not exist in the code (see the
counterexample at count 0). -/
theorem c7_pagination_amended :
    (∀ n : Nat, 1 ≤ n →
      1 ≤ totalPages n ∧ n ≤ totalPages n * agenciesPerPage ∧
      (totalPages n - 1) * agenciesPerPage < n) ∧
    (∀ n p : Nat, 1 ≤ n → 1 ≤ p → p ≤ totalPages n →
      1 ≤ nextPage (totalPages n) p ∧
      nextPage (totalPages n) p ≤ totalPages n ∧
      1 ≤ prevPage p ∧ prevPage p ≤ totalPages n ∧
      (p = totalPages n → nextPage (totalPages n) p = p) ∧
      (p = 1 → prevPage p = 1)) ∧
    totalPages 12 = 3 ∧
    nextPage (totalPages 12) (nextPage (totalPages 12) (nextPage (totalPages 12)
      (nextPage (totalPages 12) 1))) = 3 := by
  refine ⟨?_, ?_, by decide, by decide⟩
  · intro n h
    simp only [totalPages, agenciesPerPage]
    omega
  · intro n p h1 hp1 hp2
    have h5 : 1 ≤ totalPages n := by
      simp only [totalPages, agenciesPerPage]; omega
    unfold nextPage prevPage
    omega

theorem c7_pagination_amended_witness :
    ((1 : Nat) ≤ 12 ∧ (1 : Nat) ≤ 3 ∧ 3 ≤ totalPages 12) ∧
    (1 ≤ nextPage (totalPages 12) 3 ∧
      nextPage (totalPages 12) 3 ≤ totalPages 12 ∧
      1 ≤ prevPage 3 ∧ prevPage 3 ≤ totalPages 12 ∧
      (3 = totalPages 12 → nextPage (totalPages 12) 3 = 3) ∧
      (3 = 1 → prevPage 3 = 1)) :=
  ⟨⟨by decide, by decide, by decide⟩,
   c7_pagination_amended.2.1 12 3 (by decide) (by decide) (by decide)⟩

/-- Claim C8, counterexample: in the first revision the four tables all
display the single paginated list computed from the wordCount sort
state, so changing the wordCount sort changes the displayed rows of the
sentiment table. -/
theorem c8_copy1_display_coupling_counterexample :
    tableRows₁ [agencyX, agencyY]
        (handleSort Metric.wordCount (Col.yearCol 2024) initSortStates₁) 1
        Metric.sentiment = [agencyY, agencyX] ∧
    tableRows₁ [agencyX, agencyY] initSortStates₁ 1 Metric.sentiment =
      [agencyX, agencyY] ∧
    ([agencyY, agencyX] : List Agency) ≠ [agencyX, agencyY] := by
  decide

/-- Claim C8 as amended: each metric has its own sort state and a click
for one metric changes no other sort state; in the second table
implementation each table paginates its own sorted list, so the
displayed rows of the tables of the other metrics are unchanged as
well; in the first implementation, however, all four tables display one
list ordered by the wordCount sort state (the table rows do not depend
on the metric of the table), so changing the wordCount sort changes the
rows of every table. -/
theorem c8_sort_independence_amended :
    (∀ (st : SortStates) (m : Metric) (c : Col) (mp : Metric), mp ≠ m →
      handleSort m c st mp = st mp) ∧
    (∀ (data : List Agency) (st : SortStates) (page : Nat) (m : Metric)
       (c : Col) (mp : Metric), mp ≠ m →
      tableRows₂ data (handleSort m c st) page mp =
        tableRows₂ data st page mp) ∧
    (∀ (data : List Agency) (st : SortStates) (page : Nat) (m mp : Metric),
      tableRows₁ data st page m = tableRows₁ data st page mp) := by
  refine ⟨fun st m c mp h => handleSort_other m c st mp h, ?_,
    fun data st page m mp => rfl⟩
  intro data st page m c mp h
  unfold tableRows₂ getSortedAgencies
  rw [handleSort_other m c st mp h]

theorem c8_sort_independence_amended_witness :
    (Metric.sentiment ≠ Metric.wordCount) ∧
    handleSort Metric.wordCount (Col.yearCol 2024) initSortStates₂
      Metric.sentiment = initSortStates₂ Metric.sentiment :=
  ⟨by decide,
   c8_sort_independence_amended.1 initSortStates₂ Metric.wordCount
     (Col.yearCol 2024) Metric.sentiment (by decide)⟩

/-- Claim C9 (confirmed): clicking the same column of the same metric
table repeatedly toggles the direction asc, desc, asc, ..., the sort
state after the third click equals the state after the first click, and
hence the sorted sequence after the third click is identical to the one
after the first click. -/
theorem c9_sort_toggle_roundtrip :
    ∀ (st : SortStates) (m : Metric) (c : Col) (data : List Agency),
      (∃ d1 : Dir,
        (handleSort m c st) m = ⟨some c, some d1⟩ ∧
        (handleSort m c (handleSort m c st)) m = ⟨some c, some d1.toggle⟩ ∧
        (handleSort m c (handleSort m c (handleSort m c st))) m =
          ⟨some c, some d1⟩) ∧
      handleSort m c (handleSort m c (handleSort m c st)) =
        handleSort m c st ∧
      getSortedAgencies m
          (handleSort m c (handleSort m c (handleSort m c st))) data =
        getSortedAgencies m (handleSort m c st) data := by
  intro st m c data
  set d1 := if (st m).column = some c ∧ (st m).direction = some Dir.asc
    then Dir.desc else Dir.asc with hd1
  have h1 : (handleSort m c st) m = ⟨some c, some d1⟩ := handleSort_same m c st
  have h2 : (handleSort m c (handleSort m c st)) m =
      ⟨some c, some d1.toggle⟩ := by
    rw [handleSort_same, h1]
    cases hcase : d1 <;> simp [Dir.toggle]
  have h3 : (handleSort m c (handleSort m c (handleSort m c st))) m =
      ⟨some c, some d1⟩ := by
    rw [handleSort_same, h2]
    cases hcase : d1 <;> simp [Dir.toggle]
  have hst : handleSort m c (handleSort m c (handleSort m c st)) =
      handleSort m c st := by
    funext mp
    by_cases hmp : mp = m
    · subst hmp
      rw [h3, h1]
    · rw [handleSort_other m c _ mp hmp, handleSort_other m c _ mp hmp,
        handleSort_other m c _ mp hmp]
  exact ⟨⟨d1, h1, h2, h3⟩, hst, by rw [hst]⟩

/-- Claim C4 (confirmed, under the non-empty-series premise its
latest-year wording presupposes): for every metric the top3 filter
returns the first three agencies of a list s that is a permutation of
the input, is ordered by descending latest-year value of the metric,
contains every tied subsequence of the input in its original order
(stability), and whose first three entries dominate the rest; in the
scenario with A(2024 wordCount 10), B(30), C(20) the result is
[B, C, A], beginning with [B, C]. -/
theorem c4_top3_stable_descending :
    (∀ (m : Metric) (l : List Agency), (∀ a ∈ l, a.data ≠ []) →
      ∃ s : List Agency,
        handleFilterE "top3" none (some m.key) l = .ok (s.take 3) ∧
        s.Perm l ∧
        s.Pairwise (fun a b => latestValD m.key b ≤ latestValD m.key a) ∧
        (∀ c : List Agency, c.Sublist l →
          c.Pairwise (fun a b => latestValD m.key a = latestValD m.key b) →
          c.Sublist s) ∧
        (∀ a ∈ s.take 3, ∀ b ∈ s.drop 3,
          latestValD m.key b ≤ latestValD m.key a)) ∧
    handleFilterE "top3" none (some "wordCount") [agencyA, agencyB, agencyC] =
      .ok [agencyB, agencyC, agencyA] := by
  refine ⟨?_, by decide⟩
  intro m l h
  haveI : IsTotal Agency
      (fun a b => latestValD m.key b ≤ latestValD m.key a) :=
    ⟨fun a b => le_total _ _⟩
  haveI : IsTrans Agency
      (fun a b => latestValD m.key b ≤ latestValD m.key a) :=
    ⟨fun a b c hab hbc => le_trans hbc hab⟩
  refine ⟨List.insertionSort
    (fun a b => latestValD m.key b ≤ latestValD m.key a) l,
    ?_, List.perm_insertionSort _ l, List.sorted_insertionSort _ l, ?_, ?_⟩
  · rw [handleFilterE_top3_ok none (some m.key) l (truthy_metricKey m)
      (sortCrashes_eq_false h)]
    rw [show (some m.key).getD "" = m.key from rfl,
      insertionSort_desc_eq m l h]
  · intro c hcl hcp
    exact List.sublist_insertionSort
      (hcp.imp (fun hab => le_of_eq hab.symm)) hcl
  · intro a ha b hb
    have hsorted : (List.insertionSort
        (fun a b => latestValD m.key b ≤ latestValD m.key a) l).Pairwise
        (fun a b => latestValD m.key b ≤ latestValD m.key a) :=
      List.sorted_insertionSort _ l
    rw [← List.take_append_drop 3 (List.insertionSort
      (fun a b => latestValD m.key b ≤ latestValD m.key a) l)] at hsorted
    exact (List.pairwise_append.mp hsorted).2.2 a ha b hb

theorem c4_top3_stable_descending_witness :
    (∀ a ∈ [agencyA, agencyB, agencyC], a.data ≠ []) ∧
    (∃ s : List Agency,
      handleFilterE "top3" none (some Metric.wordCount.key)
        [agencyA, agencyB, agencyC] = .ok (s.take 3) ∧
      s.Perm [agencyA, agencyB, agencyC] ∧
      s.Pairwise (fun a b => latestValD Metric.wordCount.key b ≤
        latestValD Metric.wordCount.key a) ∧
      (∀ c : List Agency, c.Sublist [agencyA, agencyB, agencyC] →
        c.Pairwise (fun a b => latestValD Metric.wordCount.key a =
          latestValD Metric.wordCount.key b) → c.Sublist s) ∧
      (∀ a ∈ s.take 3, ∀ b ∈ s.drop 3,
        latestValD Metric.wordCount.key b ≤
          latestValD Metric.wordCount.key a)) :=
  ⟨by decide,
   c4_top3_stable_descending.1 Metric.wordCount [agencyA, agencyB, agencyC]
     (by decide)⟩

/-- Claim C6, counterexample: on six agencies with identical latest-year
word counts, the stable top3 and bottom3 sorts both leave the original
order, so both filters return the SAME first three agencies: the two
sets are not disjoint even though n = 3 is at most the list length and
2 * n is at most the total of six agencies. -/
theorem c6_ties_not_disjoint_counterexample :
    handleFilterE "top3" none (some "wordCount") sixEqual =
      handleFilterE "bottom3" none (some "wordCount") sixEqual ∧
    handleFilterE "top3" none (some "wordCount") sixEqual =
      .ok [mkAgency "s1" 7, mkAgency "s2" 7, mkAgency "s3" 7] ∧
    6 ≤ sixEqual.length ∧
    ¬ ([mkAgency "s1" 7, mkAgency "s2" 7, mkAgency "s3" 7] : List Agency).Disjoint
        [mkAgency "s1" 7, mkAgency "s2" 7, mkAgency "s3" 7] := by
  refine ⟨by decide, by decide, by decide, fun hd => ?_⟩
  exact hd (List.mem_cons_self _ _) (List.mem_cons_self _ _)

/-- Claim C6 as amended: the top3 and bottom3 filters with the same
metric return disjoint sets of agencies whenever the list has at least
six agencies with non-empty series AND the latest-year values of the
metric are pairwise distinct (with ties the two stable sorts can select
the same agencies, as the counterexample shows). -/
theorem c6_disjoint_amended :
    ∀ (m : Metric) (l : List Agency),
      (∀ a ∈ l, a.data ≠ []) → 6 ≤ l.length →
      l.Pairwise (fun a b => latestValD m.key a ≠ latestValD m.key b) →
      ∃ t u : List Agency,
        handleFilterE "top3" none (some m.key) l = .ok t ∧
        handleFilterE "bottom3" none (some m.key) l = .ok u ∧
        t.Disjoint u := by
  intro m l h h6 hdist
  set rd := fun a b : Agency => latestValD m.key b ≤ latestValD m.key a
    with hrd
  set ra := fun a b : Agency => latestValD m.key a ≤ latestValD m.key b
    with hra
  set ds := List.insertionSort rd l with hds
  set as := List.insertionSort ra l with has
  have htop : handleFilterE "top3" none (some m.key) l = .ok (ds.take 3) := by
    rw [handleFilterE_top3_ok none (some m.key) l (truthy_metricKey m)
      (sortCrashes_eq_false h)]
    rw [show (some m.key).getD "" = m.key from rfl,
      insertionSort_desc_eq m l h]
  have hbot : handleFilterE "bottom3" none (some m.key) l =
      .ok (as.take 3) := by
    rw [handleFilterE_bottom3_ok none (some m.key) l (truthy_metricKey m)
      (sortCrashes_eq_false h)]
    rw [show (some m.key).getD "" = m.key from rfl,
      insertionSort_asc_eq m l h]
  refine ⟨ds.take 3, as.take 3, htop, hbot, ?_⟩
  have hpd : ds.Perm l := List.perm_insertionSort rd l
  have hpa : as.Perm l := List.perm_insertionSort ra l
  haveI : IsTotal Agency rd := ⟨fun a b => le_total _ _⟩
  haveI : IsTrans Agency rd := ⟨fun a b c hab hbc => le_trans hbc hab⟩
  haveI : IsTotal Agency ra := ⟨fun a b => le_total _ _⟩
  haveI : IsTrans Agency ra := ⟨fun a b c hab hbc => le_trans hab hbc⟩
  have hsd : ds.Pairwise rd := List.sorted_insertionSort rd l
  have hsa : as.Pairwise ra := List.sorted_insertionSort ra l
  have hdd : ds.Pairwise
      (fun a b => latestValD m.key a ≠ latestValD m.key b) :=
    (hpd.pairwise_iff (fun hxy => Ne.symm hxy)).mpr hdist
  have hda : as.Pairwise
      (fun a b => latestValD m.key a ≠ latestValD m.key b) :=
    (hpa.pairwise_iff (fun hxy => Ne.symm hxy)).mpr hdist
  have hstrictd : ds.Pairwise
      (fun a b => latestValD m.key b < latestValD m.key a) :=
    (hsd.and hdd).imp (fun hab => lt_of_le_of_ne hab.1 (Ne.symm hab.2))
  have hstricta : as.Pairwise
      (fun a b => latestValD m.key a < latestValD m.key b) :=
    (hsa.and hda).imp (fun hab => lt_of_le_of_ne hab.1 hab.2)
  have hrev : ds.reverse.Pairwise
      (fun a b => latestValD m.key a < latestValD m.key b) :=
    List.pairwise_reverse.mpr hstrictd
  haveI : IsAntisymm Agency
      (fun a b : Agency => latestValD m.key a < latestValD m.key b) :=
    ⟨fun a b h1 h2 => absurd (lt_trans h1 h2) (lt_irrefl _)⟩
  have haseq : as = ds.reverse :=
    List.eq_of_perm_of_sorted
      (hpa.trans (hpd.symm.trans (List.reverse_perm ds).symm))
      hstricta hrev
  have hnd : ds.Nodup :=
    hdd.imp (fun hab heq => hab (congrArg (latestValD m.key) heq))
  intro x hxt hxu
  rw [haseq, List.take_reverse, List.mem_reverse] at hxu
  refine List.disjoint_take_drop hnd ?_ hxt hxu
  have hlen : ds.length = l.length := hpd.length_eq
  omega

theorem c6_disjoint_amended_witness :
    ((∀ a ∈ sixDistinct, a.data ≠ []) ∧ 6 ≤ sixDistinct.length ∧
      sixDistinct.Pairwise (fun a b => latestValD Metric.wordCount.key a ≠
        latestValD Metric.wordCount.key b)) ∧
    (∃ t u : List Agency,
      handleFilterE "top3" none (some Metric.wordCount.key) sixDistinct =
        .ok t ∧
      handleFilterE "bottom3" none (some Metric.wordCount.key) sixDistinct =
        .ok u ∧
      t.Disjoint u) :=
  ⟨⟨by decide, by decide, by decide⟩,
   c6_disjoint_amended Metric.wordCount sixDistinct (by decide) (by decide)
     (by decide)⟩

theorem crossVal_eq_lastVal (key : String) (a b : Agency)
    (h : a.data.length = b.data.length) :
    crossVal key a b = lastVal key b := by
  rw [crossVal, lastVal, h]

theorem jsDescLe₂_iff (key : String) (a b : Agency)
    (h : a.data.length = b.data.length) :
    jsDescLe₂ key a b ↔ jsDescLe key a b := by
  rw [jsDescLe₂, jsDescLe, jsDescLeB₂, jsDescLeB,
    crossVal_eq_lastVal key a b h]

theorem jsAscLe₂_iff (key : String) (a b : Agency)
    (h : a.data.length = b.data.length) :
    jsAscLe₂ key a b ↔ jsAscLe key a b := by
  rw [jsAscLe₂, jsAscLe, jsAscLeB₂, jsAscLeB,
    crossVal_eq_lastVal key a b h]

theorem oob₂_eq_false {k : Nat} {data : List Agency} (hk : 0 < k)
    (hlen : ∀ a ∈ data, a.data.length = k) : oob₂ data = false := by
  simp only [oob₂, List.any_eq_false, Bool.not_eq_true]
  intro a ha b hb
  rw [hlen a ha]
  have hb1 : b.data.length = k := hlen b hb
  have h0 : (0 : Int) ≤ (k : Int) - 1 := by omega
  rw [jsGet, if_pos h0]
  have htn : ((k : Int) - 1).toNat = k - 1 := by omega
  rw [htn]
  have hlt : k - 1 < b.data.length := by omega
  simp [List.getElem?_eq_getElem hlt]

/-- Claim C10, counterexample: on a pair of agencies whose series have
different lengths, the comparators of the two revisions read different
per-agency values: for the pair (S with one 2024 record of word count
10, L with records 2024 of 5 and 2025 of 20), the first revision reads
the latest value 20 of L, while the second revision indexes L by the
length of S and reads the 2024 value 5. -/
theorem c10_comparator_divergence_counterexample :
    cmpVals₂ "wordCount" agencyShort agencyLong = (some 10, some 5) ∧
    cmpVals₁ "wordCount" agencyShort agencyLong = (some 10, some 20) ∧
    cmpVals₂ "wordCount" agencyShort agencyLong ≠
      cmpVals₁ "wordCount" agencyShort agencyLong := by
  decide

/-- Claim C10 as amended: the comparators of the two revisions select
the same per-agency values for every pair of agencies whose series have EQUAL
lengths (for unequal lengths the second revision reads a non-latest
record or an out-of-bounds index, see the counterexample), and on every
dataset in which all agencies share one positive series length the two
copies of the filter return the same output in every mode. -/
theorem c10_copies_agree_amended :
    (∀ (key : String) (a b : Agency), a.data.length = b.data.length →
      cmpVals₂ key a b = cmpVals₁ key a b) ∧
    (∀ (ft : String) (sel : Option (List String)) (mt : Option String)
       (k : Nat) (data : List Agency), 0 < k →
       (∀ a ∈ data, a.data.length = k) →
       handleFilterE₂ ft sel mt data = handleFilterE ft sel mt data) := by
  constructor
  · intro key a b h
    rw [cmpVals₂, cmpVals₁, crossVal_eq_lastVal key a b h]
  · intro ft sel mt k data hk hlen
    have hne : ∀ a ∈ data, a.data ≠ [] := fun a ha =>
      List.length_pos.mp (by rw [hlen a ha]; omega)
    have hsc : sortCrashes data = false := sortCrashes_eq_false hne
    have hoob : (decide (2 ≤ data.length) && oob₂ data) = false := by
      rw [oob₂_eq_false hk hlen, Bool.and_false]
    have hiffd : ∀ a ∈ data, ∀ b ∈ data,
        (jsDescLe₂ (mt.getD "") a b ↔ jsDescLe (mt.getD "") a b) :=
      fun a ha b hb =>
        jsDescLe₂_iff _ a b ((hlen a ha).trans (hlen b hb).symm)
    have hiffa : ∀ a ∈ data, ∀ b ∈ data,
        (jsAscLe₂ (mt.getD "") a b ↔ jsAscLe (mt.getD "") a b) :=
      fun a ha b hb =>
        jsAscLe₂_iff _ a b ((hlen a ha).trans (hlen b hb).symm)
    unfold handleFilterE₂ handleFilterE
    by_cases h1 : ((ft == "top3") && truthy mt) = true
    · rw [if_pos h1, if_pos h1, hsc, hoob, if_neg Bool.false_ne_true,
        if_neg Bool.false_ne_true, insertionSort_congr hiffd]
    · rw [if_neg h1, if_neg h1]
      by_cases h2 : ((ft == "bottom3") && truthy mt) = true
      · rw [if_pos h2, if_pos h2, hsc, hoob, if_neg Bool.false_ne_true,
          if_neg Bool.false_ne_true, insertionSort_congr hiffa]
      · rw [if_neg h2, if_neg h2]

theorem c10_copies_agree_amended_witness :
    ((0 : Nat) < 1 ∧ (∀ a ∈ [agencyA, agencyB], a.data.length = 1)) ∧
    handleFilterE₂ "top3" none (some "wordCount") [agencyA, agencyB] =
      handleFilterE "top3" none (some "wordCount") [agencyA, agencyB] :=
  ⟨⟨by decide, by decide⟩,
   c10_copies_agree_amended.2 "top3" none (some "wordCount") 1
     [agencyA, agencyB] (by decide) (by decide)⟩

end RegObserver
